import Mathlib

/-!
Shallow embedding of the opencode-agent-bus core: the `MessageBus` class
(channels, agents, messages, acknowledgment, request/response correlation,
the blocking-send delivery gate, the dead-letter queue), the `Orchestrator`
(tasks / assignments / results), and the `bus_send` MCP tool handler.

The SQLite database is modelled as a state record holding the rows of each
table as a list in insertion (rowid) order.  `datetime('now')` is modelled
as a `now : Nat` clock (seconds) carried in the state and left unchanged by
each operation (a single call observes one instant).  `generateMessageId`
(`msg_` ++ a fresh UUID) is modelled as a counter-derived id `genId n`;
statements that rely on UUID freshness take explicit freshness hypotheses.
SQL `ORDER BY` is modelled as a stable insertion sort of the rows in rowid
order, and SQL `UPDATE ... WHERE` as a map over the row list.  Statements
that fail (primary-key or foreign-key violations, `throw`) are modelled
with `Except`; because the code runs each statement outside a transaction,
fallible operations return the partially-updated state alongside the error.
-/

/-- The `message_type` column: CHECK(message_type IN (broadcast, direct,
request, response)). -/
inductive MType where
  | broadcast
  | direct
  | request
  | response
deriving DecidableEq

/-- A row of the `messages` table. -/
structure Message where
  id : String
  channel : String
  sender_agent : String
  sender_session : String
  content : String
  message_type : MType
  correlation_id : Option String
  priority : Int
  created_at : Nat
  expires_at : Option Nat
  acknowledged_at : Option Nat
  acknowledged_by : Option String
deriving DecidableEq

/-- A row of the `channels` table. -/
structure Channel where
  name : String
  description : String
  created_at : Nat
  message_ttl_seconds : Int
deriving DecidableEq

/-- A row of the `agents` table; `subscribed_channels` is stored as a JSON
array of channel names, modelled directly as the parsed list. -/
structure Agent where
  agent_id : String
  session_id : String
  subscribed_channels : List String
  last_seen : Nat
  metadata : String
deriving DecidableEq

/-- A row of the `dead_letter_queue` table. -/
structure DeadLetter where
  id : String
  original_message_id : String
  channel : String
  sender_agent : String
  sender_session : String
  content : String
  failure_reason : String
  retry_count : Nat
  max_retries : Nat
  next_retry_at : Option Nat
  failed_at : Nat
  resolved_at : Option Nat
deriving DecidableEq

/-- The message-bus database state: each table as a list of rows in rowid
order, plus the wall clock and the id-generation counter. -/
structure BusState where
  channels : List Channel
  agents : List Agent
  messages : List Message
  deadLetters : List DeadLetter
  now : Nat
  nextId : Nat
deriving DecidableEq

/-- `generateMessageId()`: `msg_` followed by a fresh unique suffix,
modelled by a counter. -/
def genId (n : Nat) : String := "msg_" ++ toString n

/-- MessageBus.getChannel: SELECT * FROM channels WHERE name = ?. -/
def getChannel (s : BusState) (name : String) : Option Channel :=
  s.channels.find? (fun c => decide (c.name = name))

/-- MessageBus.createChannel: INSERT ... ON CONFLICT(name) DO UPDATE SET
description, message_ttl_seconds; returns the stored row. -/
def createChannel (s : BusState) (name description : String) (ttlSeconds : Int) :
    Channel × BusState :=
  match getChannel s name with
  | some c =>
      let c2 : Channel := { c with description := description, message_ttl_seconds := ttlSeconds }
      let channels2 := s.channels.map (fun x =>
        if x.name = name then
          { x with description := description, message_ttl_seconds := ttlSeconds }
        else x)
      (c2, { s with channels := channels2 })
  | none =>
      let c2 : Channel := { name := name, description := description,
                            created_at := s.now, message_ttl_seconds := ttlSeconds }
      (c2, { s with channels := s.channels ++ [c2] })

/-- MessageBus.getAgent: SELECT * FROM agents WHERE agent_id = ? AND session_id = ?. -/
def getAgent (s : BusState) (agentId sessionId : String) : Option Agent :=
  s.agents.find? (fun a => decide (a.agent_id = agentId ∧ a.session_id = sessionId))

/-- MessageBus.registerAgent: INSERT ... ON CONFLICT(agent_id, session_id)
DO UPDATE SET last_seen = now, metadata = ?; the upsert never touches
`subscribed_channels` (fresh rows get the column default `[]`). -/
def registerAgent (s : BusState) (agentId sessionId metadata : String) :
    Agent × BusState :=
  match getAgent s agentId sessionId with
  | some a =>
      let a2 : Agent := { a with last_seen := s.now, metadata := metadata }
      let agents2 := s.agents.map (fun x =>
        if x.agent_id = agentId ∧ x.session_id = sessionId then
          { x with last_seen := s.now, metadata := metadata }
        else x)
      (a2, { s with agents := agents2 })
  | none =>
      let a2 : Agent := { agent_id := agentId, session_id := sessionId,
                          subscribed_channels := [], last_seen := s.now, metadata := metadata }
      (a2, { s with agents := s.agents ++ [a2] })

/-- MessageBus.subscribeToChannel: fails if the agent is unregistered,
otherwise adds the channel to the subscription set if not present. -/
def subscribeToChannel (s : BusState) (agentId sessionId channel : String) :
    Except String BusState :=
  match getAgent s agentId sessionId with
  | none => .error ("Agent " ++ agentId ++ " not registered")
  | some a =>
      if channel ∈ a.subscribed_channels then .ok s
      else
        let agents2 := s.agents.map (fun x =>
          if x.agent_id = agentId ∧ x.session_id = sessionId then
            { x with subscribed_channels := x.subscribed_channels ++ [channel] }
          else x)
        .ok { s with agents := agents2 }

/-- Options object of MessageBus.sendMessage. -/
structure SendOpts where
  messageType : MType
  correlationId : Option String
  priority : Option Int
  ttlSeconds : Option Int
deriving DecidableEq

/-- The empty options object `{}` with the code's defaults. -/
def defaultSendOpts : SendOpts :=
  { messageType := .broadcast, correlationId := none, priority := none, ttlSeconds := none }

/-- MessageBus.sendMessage: auto-creates the channel if missing, resolves
the TTL (explicit option, else channel default), computes `expires_at` only
when the TTL is positive, and INSERTs the row.  A duplicate generated id
violates the primary key and throws; the channel auto-creation that already
ran is kept (no transaction). -/
def sendMessage (s : BusState) (channel senderAgent senderSession content : String)
    (opts : SendOpts) : Except String Message × BusState :=
  let id := genId s.nextId
  let s1 : BusState := { s with nextId := s.nextId + 1 }
  let (info, s2) :=
    match getChannel s1 channel with
    | some c => (c, s1)
    | none => createChannel s1 channel "" 3600
  let ttl : Int := opts.ttlSeconds.getD info.message_ttl_seconds
  let expiresAt : Option Nat := if 0 < ttl then some (s2.now + ttl.toNat) else none
  if s2.messages.any (fun m => decide (m.id = id)) then
    (.error ("UNIQUE constraint failed: messages.id"), s2)
  else
    let m : Message :=
      { id := id, channel := channel, sender_agent := senderAgent,
        sender_session := senderSession, content := content,
        message_type := opts.messageType, correlation_id := opts.correlationId,
        priority := opts.priority.getD 0, created_at := s2.now,
        expires_at := expiresAt, acknowledged_at := none, acknowledged_by := none }
    (.ok m, { s2 with messages := s2.messages ++ [m] })

/-- MessageBus.getMessage: SELECT * FROM messages WHERE id = ?. -/
def getMessage (s : BusState) (id : String) : Option Message :=
  s.messages.find? (fun m => decide (m.id = id))

/-- A row passes the expiry filter `expires_at IS NULL OR
datetime(expires_at) > datetime('now')`. -/
def visibleB (now : Nat) (m : Message) : Bool :=
  match m.expires_at with
  | none => true
  | some e => decide (now < e)

/-- Options object of MessageBus.getMessages; `limit` is applied only when
truthy (so `limit = 0` means no limit, as in the JS source). -/
structure GetOpts where
  limit : Option Nat
  since : Option Nat
  unacknowledgedOnly : Bool
  excludeSender : Option String
deriving DecidableEq

/-- The empty options object for getMessages. -/
def defaultGetOpts : GetOpts :=
  { limit := none, since := none, unacknowledgedOnly := false, excludeSender := none }

/-- The WHERE clause of MessageBus.getMessages. -/
def getMsgPred (now : Nat) (channel : String) (o : GetOpts) (m : Message) : Bool :=
  decide (m.channel = channel)
  && (match o.since with
      | none => true
      | some t => decide (t < m.created_at))
  && (!o.unacknowledgedOnly || decide (m.acknowledged_at = none))
  && (match o.excludeSender with
      | none => true
      | some a => decide (m.sender_agent ≠ a))
  && visibleB now m

/-- ORDER BY priority DESC, created_at ASC as a (non-strict) relation. -/
def msgLE (a b : Message) : Prop :=
  b.priority < a.priority ∨ (a.priority = b.priority ∧ a.created_at ≤ b.created_at)

instance : DecidableRel msgLE := fun a b =>
  inferInstanceAs (Decidable (b.priority < a.priority ∨
    (a.priority = b.priority ∧ a.created_at ≤ b.created_at)))

instance : IsTotal Message msgLE where
  total a b := by
    unfold msgLE
    rcases lt_trichotomy a.priority b.priority with h | h | h
    · exact Or.inr (Or.inl h)
    · rcases Nat.le_total a.created_at b.created_at with h2 | h2
      · exact Or.inl (Or.inr ⟨h, h2⟩)
      · exact Or.inr (Or.inr ⟨h.symm, h2⟩)
    · exact Or.inl (Or.inl h)

instance : IsTrans Message msgLE where
  trans a b c hab hbc := by
    unfold msgLE at *
    rcases hab with h1 | ⟨h1, h1c⟩ <;> rcases hbc with h2 | ⟨h2, h2c⟩
    · exact Or.inl (h2.trans h1)
    · exact Or.inl (h2 ▸ h1)
    · exact Or.inl (h1 ▸ h2)
    · exact Or.inr ⟨h1.trans h2, h1c.trans h2c⟩

/-- MessageBus.getMessages: filter (channel, since, unacknowledgedOnly,
excludeSender, not expired), ORDER BY priority DESC created_at ASC (a
stable sort over rowid order), then LIMIT when truthy. -/
def getMessages (s : BusState) (channel : String) (o : GetOpts) : List Message :=
  let sorted := List.insertionSort msgLE (s.messages.filter (getMsgPred s.now channel o))
  match o.limit with
  | none => sorted
  | some l => if l = 0 then sorted else sorted.take l

/-- MessageBus.acknowledgeMessage: UPDATE messages SET acknowledged_at =
now, acknowledged_by = ? WHERE id = ? AND acknowledged_at IS NULL; returns
whether any row changed. -/
def acknowledgeMessage (s : BusState) (messageId acknowledgedBy : String) :
    Bool × BusState :=
  let changed := s.messages.any (fun m => decide (m.id = messageId ∧ m.acknowledged_at = none))
  let messages2 := s.messages.map (fun m =>
    if m.id = messageId ∧ m.acknowledged_at = none then
      { m with acknowledged_at := some s.now, acknowledged_by := some acknowledgedBy }
    else m)
  (changed, { s with messages := messages2 })

/-- MessageBus.sendRequest: allocates a fresh correlation id and stores a
`request`-typed message with the given TTL. -/
def sendRequest (s : BusState) (channel senderAgent senderSession content : String)
    (ttlSeconds : Int) : Except String Message × BusState :=
  let correlationId := genId s.nextId
  let s1 : BusState := { s with nextId := s.nextId + 1 }
  sendMessage s1 channel senderAgent senderSession content
    { messageType := .request, correlationId := some correlationId,
      priority := none, ttlSeconds := some ttlSeconds }

/-- MessageBus.sendResponse: SELECT channel FROM messages WHERE (id = ? OR
correlation_id = ?) AND message_type = 'request' LIMIT 1; errors when no
request matches, else stores a `response`-typed message sharing the id on
the request's channel (TTL from the channel default). -/
def sendResponse (s : BusState) (correlationId senderAgent senderSession content : String) :
    Except String Message × BusState :=
  match s.messages.find? (fun m =>
      decide ((m.id = correlationId ∨ m.correlation_id = some correlationId) ∧
              m.message_type = MType.request)) with
  | none => (.error ("No request found with correlation ID: " ++ correlationId), s)
  | some original =>
      sendMessage s original.channel senderAgent senderSession content
        { messageType := .response, correlationId := some correlationId,
          priority := none, ttlSeconds := none }

/-- ORDER BY created_at ASC as a relation. -/
def createdLE (a b : Message) : Prop := a.created_at ≤ b.created_at

instance : DecidableRel createdLE := fun a b =>
  inferInstanceAs (Decidable (a.created_at ≤ b.created_at))

instance : IsTotal Message createdLE where
  total a b := Nat.le_total a.created_at b.created_at

instance : IsTrans Message createdLE where
  trans _ _ _ hab hbc := Nat.le_trans hab hbc

/-- MessageBus.getResponses: SELECT * FROM messages WHERE correlation_id = ?
AND message_type = 'response' ORDER BY created_at ASC.  Note: no expiry
filter appears in this query. -/
def getResponses (s : BusState) (correlationId : String) : List Message :=
  List.insertionSort createdLE (s.messages.filter (fun m =>
    decide (m.correlation_id = some correlationId ∧ m.message_type = MType.response)))

/-- The WHERE clause shared by hasUnackedExternalMessages and
getUnackedExternalMessages: channel IN (...), sender_agent != ?,
acknowledged_at IS NULL, not expired. -/
def unackedExtB (now : Nat) (agentId : String) (channels : List String) (m : Message) : Bool :=
  decide (m.channel ∈ channels) && decide (m.sender_agent ≠ agentId)
    && decide (m.acknowledged_at = none) && visibleB now m

/-- MessageBus.hasUnackedExternalMessages: false on an empty channel list,
else COUNT(*) > 0 over the unacked-external filter. -/
def hasUnackedExternalMessages (s : BusState) (agentId : String) (channels : List String) :
    Bool :=
  if channels.isEmpty then false
  else decide (0 < s.messages.countP (unackedExtB s.now agentId channels))

/-- Summary row returned by getUnackedExternalMessages. -/
structure UnackedInfo where
  count : Nat
  oldest_age_seconds : Option Nat
  channels : List String
deriving DecidableEq

/-- MessageBus.getUnackedExternalMessages: COUNT(*), the age of the oldest
matching message, and the distinct matching channels. -/
def getUnackedExternalMessages (s : BusState) (agentId : String) (channels : List String) :
    UnackedInfo :=
  if channels.isEmpty then { count := 0, oldest_age_seconds := none, channels := [] }
  else
    let rows := s.messages.filter (unackedExtB s.now agentId channels)
    { count := rows.length,
      oldest_age_seconds := (rows.map (fun m => m.created_at)).min?.map (fun t => s.now - t),
      channels := (rows.map (fun m => m.channel)).dedup }

/-- MessageBus.addToDeadLetter: errors when the source message is unknown,
else copies its payload into a fresh DLQ row (retry_count 0, max_retries 3,
the column defaults). -/
def addToDeadLetter (s : BusState) (messageId failureReason : String) :
    Except String BusState :=
  match getMessage s messageId with
  | none => (.error ("Message " ++ messageId ++ " not found"))
  | some m =>
      let dlqId := "dlq_" ++ toString s.nextId
      let d : DeadLetter :=
        { id := dlqId, original_message_id := messageId, channel := m.channel,
          sender_agent := m.sender_agent, sender_session := m.sender_session,
          content := m.content, failure_reason := failureReason,
          retry_count := 0, max_retries := 3, next_retry_at := none,
          failed_at := s.now, resolved_at := none }
      .ok { s with nextId := s.nextId + 1, deadLetters := s.deadLetters ++ [d] }

/-- MessageBus.retryDeadLetter: SELECT the unresolved row by id (false when
missing), refuse when retry_count has reached max_retries, else re-publish
via sendMessage; on success increment retry_count and set resolved_at, on
a send failure increment retry_count only and return false. -/
def retryDeadLetter (s : BusState) (dlqId agentId : String) : Bool × BusState :=
  match s.deadLetters.find? (fun d => decide (d.id = dlqId ∧ d.resolved_at = none)) with
  | none => (false, s)
  | some dlq =>
      if dlq.max_retries ≤ dlq.retry_count then (false, s)
      else
        match sendMessage s dlq.channel dlq.sender_agent dlq.sender_session dlq.content
            defaultSendOpts with
        | (.ok _, s2) =>
            let dls := s2.deadLetters.map (fun d =>
              if d.id = dlqId then
                { d with retry_count := d.retry_count + 1, resolved_at := some s.now }
              else d)
            (true, { s2 with deadLetters := dls })
        | (.error _, s2) =>
            let dls := s2.deadLetters.map (fun d =>
              if d.id = dlqId then { d with retry_count := d.retry_count + 1 } else d)
            (false, { s2 with deadLetters := dls })

/-- MessageBus.resolveDeadLetter: UPDATE ... SET resolved_at = now,
failure_reason appended WHERE id = ? AND resolved_at IS NULL; returns
whether any row changed. -/
def resolveDeadLetter (s : BusState) (dlqId resolution : String) : Bool × BusState :=
  let changed := s.deadLetters.any (fun d => decide (d.id = dlqId ∧ d.resolved_at = none))
  let dls := s.deadLetters.map (fun d =>
    if d.id = dlqId ∧ d.resolved_at = none then
      { d with resolved_at := some s.now,
               failure_reason := d.failure_reason ++ " | Resolution: " ++ resolution }
    else d)
  (changed, { s with deadLetters := dls })

/-- Outcome of the bus_send MCP tool handler: a failure payload
(success:false plus error), the Blocked payload (success:false,
blocked:true, unacked summary, guidance), or the stored message. -/
inductive SendResult where
  | failure (error : String)
  | blocked (count : Nat) (channels : List String) (oldestAge : Option Nat) (guidance : String)
  | ok (m : Message)
deriving DecidableEq

/-- The remediation guidance text included in every Blocked response. -/
def blockedGuidance : String :=
  "This is not an error to fix. This is the blocking send feature preventing message spam. Read your pending messages with bus_receive, acknowledge them with bus_acknowledge, then retry sending."

/-- The bus_send tool handler (registry-client.ts), non-waiting path:
require a registered agent, run the delivery gate unless force_send is set
or the subscription set is empty, and otherwise store via sendMessage. -/
def busSend (s : BusState) (channel agentId sessionId content : String)
    (priority : Option Int) (ttlSeconds : Option Int) (forceSend : Bool) :
    SendResult × BusState :=
  match getAgent s agentId sessionId with
  | none => (.failure ("Agent " ++ agentId ++ " not registered"), s)
  | some agent =>
      let subs := agent.subscribed_channels
      if !forceSend && !subs.isEmpty
          && hasUnackedExternalMessages s agentId subs then
        let info := getUnackedExternalMessages s agentId subs
        (.blocked info.count info.channels info.oldest_age_seconds blockedGuidance, s)
      else
        match sendMessage s channel agentId sessionId content
            { messageType := .broadcast, correlationId := none,
              priority := priority, ttlSeconds := ttlSeconds } with
        | (.ok m, s2) => (.ok m, s2)
        | (.error e, s2) => (.failure e, s2)

/-- A row of the `orch_tasks` table. -/
structure OTask where
  id : String
  title : String
  description : String
  created_by : String
  priority : Int
  status : String
  created_at : Nat
deriving DecidableEq

/-- A row of the `orch_assignments` table. -/
structure Assignment where
  id : String
  task_id : String
  agent_id : String
  assigned_at : Nat
  accepted_at : Option Nat
  started_at : Option Nat
  submitted_at : Option Nat
  approved_at : Option Nat
  status : String
  blocking : Bool
deriving DecidableEq

/-- A row of the `orch_results` table. -/
structure OResult where
  id : String
  task_id : String
  agent_id : String
  result_data : String
  submitted_at : Nat
  approved : Bool
  approval_notes : Option String
deriving DecidableEq

/-- The orchestrator's slice of the database (PRAGMA foreign_keys = ON is
set by initializeDatabase, so the FOREIGN KEY of orch_assignments.task_id
is enforced). -/
structure OrchState where
  tasks : List OTask
  assignments : List Assignment
  results : List OResult
  now : Nat
  nextId : Nat
deriving DecidableEq

/-- Orchestrator.createTask: INSERT a fresh row with the status column
default 'created'. -/
def createTask (s : OrchState) (title createdBy description : String) (priority : Int) :
    Except String OTask × OrchState :=
  let id := "task_" ++ toString s.nextId
  let s1 : OrchState := { s with nextId := s.nextId + 1 }
  if s1.tasks.any (fun t => decide (t.id = id)) then
    (.error ("UNIQUE constraint failed: orch_tasks.id"), s1)
  else
    let t : OTask := { id := id, title := title, description := description,
                       created_by := createdBy, priority := priority,
                       status := "created", created_at := s1.now }
    (.ok t, { s1 with tasks := s1.tasks ++ [t] })

/-- Orchestrator.assignTask: INSERT INTO orch_assignments with the status
column default 'assigned'.  The method itself performs no task lookup, but
with foreign-key enforcement on, the INSERT throws when task_id matches no
orch_tasks row. -/
def assignTask (s : OrchState) (taskId agentId : String) (blocking : Bool) :
    Except String Assignment × OrchState :=
  let assignId := "assign_" ++ toString s.nextId
  let s1 : OrchState := { s with nextId := s.nextId + 1 }
  if ¬ s1.tasks.any (fun t => decide (t.id = taskId)) then
    (.error "FOREIGN KEY constraint failed", s1)
  else if s1.assignments.any (fun a => decide (a.id = assignId)) then
    (.error ("UNIQUE constraint failed: orch_assignments.id"), s1)
  else
    let a : Assignment := { id := assignId, task_id := taskId, agent_id := agentId,
                            assigned_at := s1.now, accepted_at := none, started_at := none,
                            submitted_at := none, approved_at := none,
                            status := "assigned", blocking := blocking }
    (.ok a, { s1 with assignments := s1.assignments ++ [a] })

/-- Orchestrator.acceptTask: UPDATE orch_assignments SET status =
'accepted', accepted_at = now WHERE task_id = ? AND agent_id = ? AND
status = 'assigned'; returns whether any row changed. -/
def acceptTask (s : OrchState) (taskId agentId : String) : Bool × OrchState :=
  let changed := s.assignments.any (fun a =>
    decide (a.task_id = taskId ∧ a.agent_id = agentId ∧ a.status = "assigned"))
  let asg2 := s.assignments.map (fun a =>
    if a.task_id = taskId ∧ a.agent_id = agentId ∧ a.status = "assigned" then
      { a with status := "accepted", accepted_at := some s.now }
    else a)
  (changed, { s with assignments := asg2 })

/-- Orchestrator.submitResult: INSERT an orch_results row, then force the
assignment status to 'submitted' regardless of its prior status. -/
def submitResult (s : OrchState) (taskId agentId resultData : String) :
    Except String OResult × OrchState :=
  let resultId := "result_" ++ toString s.nextId
  let s1 : OrchState := { s with nextId := s.nextId + 1 }
  if s1.results.any (fun r => decide (r.id = resultId)) then
    (.error ("UNIQUE constraint failed: orch_results.id"), s1)
  else
    let r : OResult := { id := resultId, task_id := taskId, agent_id := agentId,
                         result_data := resultData, submitted_at := s1.now,
                         approved := false, approval_notes := none }
    let asg2 := s1.assignments.map (fun a =>
      if a.task_id = taskId ∧ a.agent_id = agentId then
        { a with status := "submitted", submitted_at := some s1.now }
      else a)
    (.ok r, { s1 with results := s1.results ++ [r], assignments := asg2 })

/-- Orchestrator.approveResult: three unconditional UPDATEs (result
approved, assignment approved, task completed), then `return true` with no
check that anything matched. -/
def approveResult (s : OrchState) (taskId agentId approvalNotes : String) :
    Bool × OrchState :=
  let res2 := s.results.map (fun r =>
    if r.task_id = taskId ∧ r.agent_id = agentId then
      { r with approved := true, approval_notes := some approvalNotes }
    else r)
  let asg2 := s.assignments.map (fun a =>
    if a.task_id = taskId ∧ a.agent_id = agentId then
      { a with status := "approved", approved_at := some s.now }
    else a)
  let tasks2 := s.tasks.map (fun t =>
    if t.id = taskId then { t with status := "completed" } else t)
  (true, { s with results := res2, assignments := asg2, tasks := tasks2 })

/-! ## Concrete demo states used by witnesses and counterexamples -/

/-- A one-message demo state for the acknowledge witness. -/
def ackDemoMsg : Message :=
  { id := "msg_0", channel := "c", sender_agent := "a", sender_session := "s1",
    content := "hi", message_type := .broadcast, correlation_id := none,
    priority := 0, created_at := 5, expires_at := none,
    acknowledged_at := none, acknowledged_by := none }

/-- State holding only `ackDemoMsg`. -/
def ackDemoState : BusState :=
  { channels := [], agents := [], messages := [ackDemoMsg],
    deadLetters := [], now := 10, nextId := 1 }

/-- Demo agent with a non-empty subscription set. -/
def hbAgent : Agent :=
  { agent_id := "a1", session_id := "s1", subscribed_channels := ["c"],
    last_seen := 3, metadata := "x" }

/-- Demo state holding `hbAgent`. -/
def hbState : BusState :=
  { channels := [], agents := [hbAgent], messages := [], deadLetters := [],
    now := 7, nextId := 0 }

/-- The empty orchestrator database. -/
def orchEmpty : OrchState :=
  { tasks := [], assignments := [], results := [], now := 0, nextId := 0 }

/-- A single assignment in status assigned, for the acceptTask witness. -/
def casAssignment : Assignment :=
  { id := "assign_0", task_id := "t1", agent_id := "a1", assigned_at := 1,
    accepted_at := none, started_at := none, submitted_at := none, approved_at := none,
    status := "assigned", blocking := true }

/-- Orchestrator state holding one task and `casAssignment`. -/
def casState : OrchState :=
  { tasks := [{ id := "t1", title := "T", description := "", created_by := "boss",
                priority := 0, status := "created", created_at := 0 }],
    assignments := [casAssignment], results := [], now := 9, nextId := 1 }

/-- One send on channel c with a given priority, for the ordering demo. -/
def prioSend (s : BusState) (content : String) (prio : Int) : BusState :=
  (sendMessage s "c" "a" "s1" content
    { messageType := .broadcast, correlationId := none,
      priority := some prio, ttlSeconds := none }).2

/-- Four messages with priorities [5, 1, 5, 0] sent in that order. -/
def prioState : BusState :=
  prioSend (prioSend (prioSend (prioSend
    { channels := [], agents := [], messages := [], deadLetters := [],
      now := 100, nextId := 0 } "p5a" 5) "p1" 1) "p5b" 5) "p0" 0

/-- An already-expired response-typed message (expires_at 5, read at 100). -/
def expiredRespMsg : Message :=
  { id := "msg_r", channel := "c", sender_agent := "b", sender_session := "s2",
    content := "late", message_type := .response, correlation_id := some "corr",
    priority := 0, created_at := 1, expires_at := some 5,
    acknowledged_at := none, acknowledged_by := none }

/-- State holding only the expired response, with the clock far past its
expiry. -/
def expiredRespState : BusState :=
  { channels := [], agents := [], messages := [expiredRespMsg],
    deadLetters := [], now := 100, nextId := 0 }

/-- A live (not yet expired) message for the C4 witness. -/
def liveMsg : Message :=
  { id := "msg_l", channel := "c", sender_agent := "b", sender_session := "s2",
    content := "hi", message_type := .broadcast, correlation_id := none,
    priority := 0, created_at := 1, expires_at := some 50,
    acknowledged_at := none, acknowledged_by := none }

/-- State holding only `liveMsg` at time 10. -/
def liveState : BusState :=
  { channels := [], agents := [], messages := [liveMsg],
    deadLetters := [], now := 10, nextId := 0 }

/-- Agent a1 subscribed to channel c, for the delivery-gate witness. -/
def gateAgent : Agent :=
  { agent_id := "a1", session_id := "s1", subscribed_channels := ["c"],
    last_seen := 40, metadata := "" }

/-- An unacknowledged message from another sender (b1) on channel c. -/
def gateMsg : Message :=
  { id := "msg_b", channel := "c", sender_agent := "b1", sender_session := "s2",
    content := "ping", message_type := .broadcast, correlation_id := none,
    priority := 0, created_at := 1, expires_at := none,
    acknowledged_at := none, acknowledged_by := none }

/-- Delivery-gate demo state: a1 subscribed to c, one unacked external
message pending. -/
def gateState : BusState :=
  { channels := [{ name := "c", description := "", created_at := 0,
                   message_ttl_seconds := 3600 }],
    agents := [gateAgent], messages := [gateMsg], deadLetters := [],
    now := 50, nextId := 7 }

/-- Empty-store state with channel c, for the round-trip witness. -/
def rrState : BusState :=
  { channels := [{ name := "c", description := "", created_at := 0,
                   message_ttl_seconds := 3600 }],
    agents := [], messages := [], deadLetters := [], now := 30, nextId := 0 }

/-- An unresolved dead letter one retry short of its cap. -/
def dlqEntry : DeadLetter :=
  { id := "dlq_1", original_message_id := "msg_9", channel := "c",
    sender_agent := "a", sender_session := "s1", content := "x",
    failure_reason := "boom", retry_count := 2, max_retries := 3,
    next_retry_at := none, failed_at := 4, resolved_at := none }

/-- State holding `dlqEntry` with channel c present. -/
def dlqState : BusState :=
  { channels := [{ name := "c", description := "", created_at := 0,
                   message_ttl_seconds := 3600 }],
    agents := [], messages := [], deadLetters := [dlqEntry], now := 70, nextId := 3 }

/-! ## Helper lemmas -/

/-- A map whose function fixes every element of the list is the identity. -/
theorem map_id_of_all {α : Type} (l : List α) (f : α → α) (h : ∀ x ∈ l, f x = x) :
    l.map f = l := by
  induction l with
  | nil => rfl
  | cons a t ih =>
      rw [List.map_cons, h a (List.mem_cons_self a t),
        ih (fun x hx => h x (List.mem_cons_of_mem a hx))]

/-- find? commutes with a map that preserves the predicate. -/
theorem find?_map_of_pred_comm {α : Type} (l : List α) (f : α → α) (p : α → Bool)
    (h : ∀ x, p (f x) = p x) : (l.map f).find? p = (l.find? p).map f := by
  induction l with
  | nil => rfl
  | cons a t ih =>
      rw [List.map_cons, List.find?_cons, List.find?_cons, h a]
      cases p a with
      | true => rfl
      | false => exact ih

/-- Unfolding lemma: the reported change flag of acknowledgeMessage. -/
theorem acknowledgeMessage_fst (s : BusState) (mid w : String) :
    (acknowledgeMessage s mid w).1 =
      s.messages.any (fun m => decide (m.id = mid ∧ m.acknowledged_at = none)) := rfl

/-- Unfolding lemma: the state produced by acknowledgeMessage. -/
theorem acknowledgeMessage_snd (s : BusState) (mid w : String) :
    (acknowledgeMessage s mid w).2 = { s with messages := s.messages.map (fun m =>
      if m.id = mid ∧ m.acknowledged_at = none then
        { m with acknowledged_at := some s.now, acknowledged_by := some w }
      else m) } := rfl

/-! ## C2: acknowledgeMessage is a first-writer-wins guarded write -/

/-- C2: for every state, the first acknowledge of an existing
unacknowledged message id reports true; a second acknowledge of the same
id reports false and leaves the state (hence acknowledged_by and
acknowledged_at of every message) unchanged, and an acknowledge of a
missing id reports false and leaves the state unchanged. -/
theorem acknowledgeMessage_first_writer_wins (s : BusState) (mid w1 w2 : String) :
    (∀ m, getMessage s mid = some m → m.acknowledged_at = none →
      (acknowledgeMessage s mid w1).1 = true ∧
      (acknowledgeMessage (acknowledgeMessage s mid w1).2 mid w2).1 = false ∧
      (acknowledgeMessage (acknowledgeMessage s mid w1).2 mid w2).2 =
        (acknowledgeMessage s mid w1).2) ∧
    (getMessage s mid = none →
      (acknowledgeMessage s mid w1).1 = false ∧ (acknowledgeMessage s mid w1).2 = s) := by
  constructor
  · intro m hm hnone
    have hmem : m ∈ s.messages := List.mem_of_find?_eq_some hm
    have hid : m.id = mid := by
      have := List.find?_some hm
      simpa using this
    have hach : ∀ x ∈ (acknowledgeMessage s mid w1).2.messages,
        ¬ (x.id = mid ∧ x.acknowledged_at = none) := by
      intro x hx
      rw [acknowledgeMessage_snd] at hx
      simp only [List.mem_map] at hx
      obtain ⟨y, _, hy⟩ := hx
      by_cases hc : y.id = mid ∧ y.acknowledged_at = none
      · rw [if_pos hc] at hy
        intro hcon
        rw [← hy] at hcon
        simp at hcon
      · rw [if_neg hc] at hy
        rw [← hy]
        exact hc
    refine ⟨?_, ?_, ?_⟩
    · rw [acknowledgeMessage_fst, List.any_eq_true]
      exact ⟨m, hmem, by simp [hid, hnone]⟩
    · rw [acknowledgeMessage_fst, List.any_eq_false]
      intro x hx
      simpa using hach x hx
    · rw [acknowledgeMessage_snd (acknowledgeMessage s mid w1).2,
        map_id_of_all _ _ (fun x hx => if_neg (hach x hx))]
  · intro hm
    rw [getMessage, List.find?_eq_none] at hm
    have hnm : ∀ x ∈ s.messages, ¬ (x.id = mid ∧ x.acknowledged_at = none) := by
      intro x hx hcon
      have h1 := hm x hx
      simp only [decide_eq_true_eq] at h1
      exact h1 hcon.1
    constructor
    · rw [acknowledgeMessage_fst, List.any_eq_false]
      intro x hx
      simpa using hnm x hx
    · rw [acknowledgeMessage_snd,
        map_id_of_all _ _ (fun x hx => if_neg (hnm x hx))]

/-- Witness for C2 at a concrete one-message state. -/
theorem acknowledgeMessage_first_writer_wins_w :
    (acknowledgeMessage ackDemoState "msg_0" "alice").1 = true ∧
    (acknowledgeMessage (acknowledgeMessage ackDemoState "msg_0" "alice").2 "msg_0" "bob").1
      = false ∧
    (acknowledgeMessage (acknowledgeMessage ackDemoState "msg_0" "alice").2 "msg_0" "bob").2
      = (acknowledgeMessage ackDemoState "msg_0" "alice").2 := by
  refine (acknowledgeMessage_first_writer_wins ackDemoState "msg_0" "alice" "bob").1
    ackDemoMsg ?_ ?_
  · decide
  · decide

/-! ## C10: a heartbeat re-registration never drops subscriptions -/

/-- C10: for an already-registered (agent_id, session_id), a repeated
registerAgent call returns the row with only last_seen and metadata
updated — subscribed_channels (and every other table) is untouched. -/
theorem registerAgent_heartbeat_preserves_subscriptions
    (s : BusState) (aid sid meta : String) (ag : Agent)
    (hag : getAgent s aid sid = some ag) :
    (registerAgent s aid sid meta).1 = { ag with last_seen := s.now, metadata := meta } ∧
    (registerAgent s aid sid meta).1.subscribed_channels = ag.subscribed_channels ∧
    getAgent (registerAgent s aid sid meta).2 aid sid = some (registerAgent s aid sid meta).1 ∧
    (registerAgent s aid sid meta).2.messages = s.messages ∧
    (registerAgent s aid sid meta).2.channels = s.channels ∧
    (registerAgent s aid sid meta).2.deadLetters = s.deadLetters := by
  have hpa : ag.agent_id = aid ∧ ag.session_id = sid := by
    have := List.find?_some hag
    simpa using this
  have h1 : (registerAgent s aid sid meta).1 =
      { ag with last_seen := s.now, metadata := meta } := by
    simp only [registerAgent, hag]
  have h2 : (registerAgent s aid sid meta).2 = { s with agents := s.agents.map (fun x =>
      if x.agent_id = aid ∧ x.session_id = sid then
        { x with last_seen := s.now, metadata := meta } else x) } := by
    simp only [registerAgent, hag]
  refine ⟨h1, by rw [h1], ?_, by rw [h2], by rw [h2], by rw [h2]⟩
  rw [h2, h1]
  simp only [getAgent]
  rw [find?_map_of_pred_comm _ _ _ ?hcomm]
  · rw [getAgent] at hag
    rw [hag, Option.map_some', if_pos hpa]
  case hcomm =>
    intro x
    by_cases hx : x.agent_id = aid ∧ x.session_id = sid
    · rw [if_pos hx]
    · rw [if_neg hx]

/-- Witness for C10: a concrete heartbeat keeps the subscription list. -/
theorem registerAgent_heartbeat_preserves_subscriptions_w :
    (registerAgent hbState "a1" "s1" "m2").1.subscribed_channels = ["c"] ∧
    getAgent (registerAgent hbState "a1" "s1" "m2").2 "a1" "s1" =
      some (registerAgent hbState "a1" "s1" "m2").1 := by
  have h := registerAgent_heartbeat_preserves_subscriptions hbState "a1" "s1" "m2" hbAgent
    (by decide)
  exact ⟨h.2.1, h.2.2.1⟩

/-! ## C9: approveResult reports success unconditionally -/

/-- Unfolding lemma: the state produced by approveResult. -/
theorem approveResult_snd (s : OrchState) (taskId agentId notes : String) :
    (approveResult s taskId agentId notes).2 = { s with
      results := s.results.map (fun r =>
        if r.task_id = taskId ∧ r.agent_id = agentId then
          { r with approved := true, approval_notes := some notes }
        else r),
      assignments := s.assignments.map (fun a =>
        if a.task_id = taskId ∧ a.agent_id = agentId then
          { a with status := "approved", approved_at := some s.now }
        else a),
      tasks := s.tasks.map (fun t =>
        if t.id = taskId then { t with status := "completed" } else t) } := rfl

/-- C9: approveResult returns true for every input, and when no result,
assignment or task matches the given ids it changes no row at all — an
unknown id never surfaces a NotFound outcome. -/
theorem approveResult_unconditional_true (s : OrchState) (taskId agentId notes : String) :
    (approveResult s taskId agentId notes).1 = true ∧
    ((∀ r ∈ s.results, ¬(r.task_id = taskId ∧ r.agent_id = agentId)) →
     (∀ a ∈ s.assignments, ¬(a.task_id = taskId ∧ a.agent_id = agentId)) →
     (∀ t ∈ s.tasks, ¬ t.id = taskId) →
     (approveResult s taskId agentId notes).2 = s) := by
  refine ⟨rfl, ?_⟩
  intro hr ha ht
  rw [approveResult_snd,
    map_id_of_all _ _ (fun x hx => if_neg (hr x hx)),
    map_id_of_all _ _ (fun x hx => if_neg (ha x hx)),
    map_id_of_all _ _ (fun x hx => if_neg (ht x hx))]

/-- Witness for C9: on the empty database with ids that match nothing,
approveResult still reports success and changes nothing. -/
theorem approveResult_unconditional_true_w :
    (approveResult orchEmpty "t0" "a0" "n").1 = true ∧
    (approveResult orchEmpty "t0" "a0" "n").2 = orchEmpty := by
  have h := approveResult_unconditional_true orchEmpty "t0" "a0" "n"
  exact ⟨h.1, h.2 (by simp [orchEmpty]) (by simp [orchEmpty]) (by simp [orchEmpty])⟩

/-! ## C8: acceptTask is a compare-and-swap from assigned to accepted -/

/-- Unfolding lemma: the change flag of acceptTask. -/
theorem acceptTask_fst (s : OrchState) (taskId agentId : String) :
    (acceptTask s taskId agentId).1 = s.assignments.any (fun a =>
      decide (a.task_id = taskId ∧ a.agent_id = agentId ∧ a.status = "assigned")) := rfl

/-- Unfolding lemma: the state produced by acceptTask. -/
theorem acceptTask_snd (s : OrchState) (taskId agentId : String) :
    (acceptTask s taskId agentId).2 = { s with assignments := s.assignments.map (fun a =>
      if a.task_id = taskId ∧ a.agent_id = agentId ∧ a.status = "assigned" then
        { a with status := "accepted", accepted_at := some s.now }
      else a) } := rfl

/-- C8: acceptTask returns true iff an assignment for (taskId, agentId)
currently in status assigned exists; a true call moves that assignment to
accepted, a false call changes nothing, and an immediately repeated call
always reports false — so of two calls on an assignment starting in
assigned, exactly one returns true. -/
theorem acceptTask_cas (s : OrchState) (taskId agentId : String) :
    ((acceptTask s taskId agentId).1 = true ↔
      ∃ a ∈ s.assignments, a.task_id = taskId ∧ a.agent_id = agentId ∧ a.status = "assigned") ∧
    ((acceptTask s taskId agentId).1 = false → (acceptTask s taskId agentId).2 = s) ∧
    ((acceptTask s taskId agentId).1 = true →
      ∃ a ∈ (acceptTask s taskId agentId).2.assignments,
        a.task_id = taskId ∧ a.agent_id = agentId ∧ a.status = "accepted" ∧
        a.accepted_at = some s.now) ∧
    (acceptTask (acceptTask s taskId agentId).2 taskId agentId).1 = false := by
  have hpost : ∀ x ∈ (acceptTask s taskId agentId).2.assignments,
      ¬ (x.task_id = taskId ∧ x.agent_id = agentId ∧ x.status = "assigned") := by
    intro x hx
    rw [acceptTask_snd] at hx
    simp only [List.mem_map] at hx
    obtain ⟨y, _, hy⟩ := hx
    by_cases hc : y.task_id = taskId ∧ y.agent_id = agentId ∧ y.status = "assigned"
    · rw [if_pos hc] at hy
      intro hcon
      rw [← hy] at hcon
      simp at hcon
    · rw [if_neg hc] at hy
      rw [← hy]
      exact hc
  refine ⟨?_, ?_, ?_, ?_⟩
  · rw [acceptTask_fst]
    simp [List.any_eq_true]
  · intro hfalse
    rw [acceptTask_fst, List.any_eq_false] at hfalse
    have hnm : ∀ x ∈ s.assignments,
        ¬ (x.task_id = taskId ∧ x.agent_id = agentId ∧ x.status = "assigned") := by
      intro x hx
      simpa using hfalse x hx
    rw [acceptTask_snd, map_id_of_all _ _ (fun x hx => if_neg (hnm x hx))]
  · intro htrue
    rw [acceptTask_fst, List.any_eq_true] at htrue
    obtain ⟨a, ha, hpa⟩ := htrue
    simp only [decide_eq_true_eq] at hpa
    refine ⟨{ a with status := "accepted", accepted_at := some s.now },
      ?_, hpa.1, hpa.2.1, rfl, rfl⟩
    rw [acceptTask_snd]
    refine List.mem_map.mpr ⟨a, ha, ?_⟩
    rw [if_pos hpa]
  · rw [acceptTask_fst, List.any_eq_false]
    intro x hx
    simpa using hpost x hx

/-- Witness for C8: concretely, the first accept returns true and the
second returns false. -/
theorem acceptTask_cas_w :
    (acceptTask casState "t1" "a1").1 = true ∧
    (acceptTask (acceptTask casState "t1" "a1").2 "t1" "a1").1 = false := by
  have h := acceptTask_cas casState "t1" "a1"
  exact ⟨h.1.mpr ⟨casAssignment, by decide, by decide, by decide, by decide⟩, h.2.2.2⟩

/-! ## C7: assignTask and the enforced task foreign key -/

/-- C7 counterexample: with no tasks at all, assignTask does not succeed —
the INSERT fails on the orch_assignments foreign key (PRAGMA foreign_keys
is ON) and no Assignment row is stored. -/
theorem assignTask_missing_task_cex :
    (assignTask orchEmpty "t0" "a0" true).1 = Except.error "FOREIGN KEY constraint failed" ∧
    (assignTask orchEmpty "t0" "a0" true).2.assignments = [] :=
  ⟨rfl, rfl⟩

/-- C7 amended: assignTask performs no application-level existence check,
but the enforced foreign key rejects the INSERT whenever taskId matches no
task (leaving the assignments table unchanged); whenever the task exists
(and the generated id is fresh) it inserts an Assignment row in status
assigned. -/
theorem assignTask_fk_enforced (s : OrchState) (taskId agentId : String) (blocking : Bool) :
    ((∀ t ∈ s.tasks, ¬ t.id = taskId) →
      (assignTask s taskId agentId blocking).1 = Except.error "FOREIGN KEY constraint failed" ∧
      (assignTask s taskId agentId blocking).2.assignments = s.assignments) ∧
    ((∃ t ∈ s.tasks, t.id = taskId) →
     (∀ a ∈ s.assignments, ¬ a.id = "assign_" ++ toString s.nextId) →
      ∃ asg, (assignTask s taskId agentId blocking).1 = Except.ok asg ∧
        asg.status = "assigned" ∧ asg.task_id = taskId ∧ asg.agent_id = agentId ∧
        asg.blocking = blocking ∧
        (assignTask s taskId agentId blocking).2.assignments = s.assignments ++ [asg]) := by
  constructor
  · intro h
    have hany : s.tasks.any (fun t => decide (t.id = taskId)) = false := by
      rw [List.any_eq_false]
      intro x hx
      simpa using h x hx
    simp only [assignTask, hany]
    simp
  · intro hex hfresh
    have hany : s.tasks.any (fun t => decide (t.id = taskId)) = true := by
      rw [List.any_eq_true]
      obtain ⟨t, ht, hid⟩ := hex
      exact ⟨t, ht, by simpa using hid⟩
    have hany2 : s.assignments.any (fun a =>
        decide (a.id = "assign_" ++ toString s.nextId)) = false := by
      rw [List.any_eq_false]
      intro x hx
      simpa using hfresh x hx
    refine ⟨{ id := "assign_" ++ toString s.nextId, task_id := taskId, agent_id := agentId,
              assigned_at := s.now, accepted_at := none, started_at := none,
              submitted_at := none, approved_at := none,
              status := "assigned", blocking := blocking }, ?_⟩
    simp only [assignTask, hany, hany2]
    simp

/-! ## C3: getMessages orders by priority desc, then creation asc (FIFO ties) -/

/-- C3: getMessages always returns a list sorted by priority descending
then creation ascending; every returned message is one of the stored rows
passing the filter, and with no limit the result is a permutation of the
filtered rows (the sort is stable, so ties keep FIFO rowid order); in
particular priorities [5,1,5,0] sent in that order come back as
[5(first), 5(second), 1, 0]. -/
theorem getMessages_priority_order :
    (∀ (s : BusState) (ch : String) (o : GetOpts),
      List.Sorted msgLE (getMessages s ch o) ∧
      (∀ m ∈ getMessages s ch o, m ∈ s.messages.filter (getMsgPred s.now ch o)) ∧
      (o.limit = none →
        (getMessages s ch o).Perm (s.messages.filter (getMsgPred s.now ch o)))) ∧
    (getMessages prioState "c" defaultGetOpts).map Message.content =
      ["p5a", "p5b", "p1", "p0"] := by
  constructor
  · intro s ch o
    have hsorted := List.sorted_insertionSort msgLE (s.messages.filter (getMsgPred s.now ch o))
    refine ⟨?_, ?_, ?_⟩
    · simp only [getMessages]
      split
      · exact hsorted
      · split
        · exact hsorted
        · exact List.Pairwise.sublist (List.take_sublist _ _) hsorted
    · intro m hm
      simp only [getMessages] at hm
      split at hm
      · exact (List.mem_insertionSort msgLE).mp hm
      · split at hm
        · exact (List.mem_insertionSort msgLE).mp hm
        · exact (List.mem_insertionSort msgLE).mp (List.mem_of_mem_take hm)
    · intro hlim
      simp only [getMessages, hlim]
      exact List.perm_insertionSort msgLE _
  · rfl

/-- Witness for C3 at the concrete four-message state (discharging the
no-limit hypothesis). -/
theorem getMessages_priority_order_w :
    List.Sorted msgLE (getMessages prioState "c" defaultGetOpts) ∧
    (getMessages prioState "c" defaultGetOpts).Perm
      (prioState.messages.filter (getMsgPred prioState.now "c" defaultGetOpts)) := by
  have h := getMessages_priority_order.1 prioState "c" defaultGetOpts
  exact ⟨h.1, h.2.2 rfl⟩

/-! ## C4: expiry filtering — getMessages filters, getResponses does not -/

/-- C4 counterexample: getResponses is a read path over stored messages
that returns a message whose expires_at (5) is before the read time (100)
— its query has no expiry filter, so expired messages are not invisible
to every read. -/
theorem getResponses_returns_expired_cex :
    getResponses expiredRespState "corr" = [expiredRespMsg] ∧
    expiredRespMsg.expires_at = some 5 ∧ expiredRespState.now = 100 :=
  ⟨rfl, rfl, rfl⟩

/-- C4 amended: getMessages (the receive path) never returns a message
whose expires_at is at or before the read time; the getResponses query has
no expiry filter and does return expired rows. -/
theorem getMessages_excludes_expired (s : BusState) (ch : String) (o : GetOpts)
    (m : Message) (hm : m ∈ getMessages s ch o) :
    ∀ e, m.expires_at = some e → s.now < e := by
  intro e he
  have hmem : m ∈ s.messages.filter (getMsgPred s.now ch o) := by
    simp only [getMessages] at hm
    split at hm
    · exact (List.mem_insertionSort msgLE).mp hm
    · split at hm
      · exact (List.mem_insertionSort msgLE).mp hm
      · exact (List.mem_insertionSort msgLE).mp (List.mem_of_mem_take hm)
  have hv : visibleB s.now m = true := by
    have hp := (List.mem_filter.mp hmem).2
    simp only [getMsgPred, Bool.and_eq_true] at hp
    exact hp.2
  simp only [visibleB, he] at hv
  simpa using hv

/-- Witness for C4's amended theorem at a concrete returned message. -/
theorem getMessages_excludes_expired_w : liveState.now < 50 :=
  getMessages_excludes_expired liveState "c" defaultGetOpts liveMsg (by decide) 50 rfl

/-! ## Characterization of sendMessage -/

/-- sendMessage never touches the dead-letter table, whether it succeeds
or throws. -/
theorem sendMessage_deadLetters (s : BusState) (ch sa ss c : String) (opts : SendOpts) :
    (sendMessage s ch sa ss c opts).2.deadLetters = s.deadLetters := by
  simp only [sendMessage]
  cases hch : getChannel { s with nextId := s.nextId + 1 } ch with
  | some c2 => split <;> rfl
  | none =>
      simp only [createChannel, hch]
      split <;> rfl

/-- sendMessage never touches the clock. -/
theorem sendMessage_now (s : BusState) (ch sa ss c : String) (opts : SendOpts) :
    (sendMessage s ch sa ss c opts).2.now = s.now := by
  simp only [sendMessage]
  cases hch : getChannel { s with nextId := s.nextId + 1 } ch with
  | some c2 => split <;> rfl
  | none =>
      simp only [createChannel, hch]
      split <;> rfl

/-- A successful sendMessage (fresh generated id): the message row is
appended and everything except the id counter and a possibly auto-created
channel is unchanged. -/
theorem sendMessage_ok (s : BusState) (ch sa ss msgContent : String) (opts : SendOpts)
    (hfresh : ∀ m ∈ s.messages, ¬ m.id = genId s.nextId) :
    ∃ m s2, sendMessage s ch sa ss msgContent opts = (.ok m, s2) ∧
      s2.messages = s.messages ++ [m] ∧
      s2.agents = s.agents ∧ s2.deadLetters = s.deadLetters ∧
      s2.now = s.now ∧ s2.nextId = s.nextId + 1 ∧
      m.id = genId s.nextId ∧ m.channel = ch ∧ m.sender_agent = sa ∧
      m.sender_session = ss ∧ m.content = msgContent ∧
      m.message_type = opts.messageType ∧ m.correlation_id = opts.correlationId ∧
      m.priority = opts.priority.getD 0 ∧ m.created_at = s.now ∧
      m.acknowledged_at = none ∧
      (∀ info, getChannel s ch = some info → s2.channels = s.channels) := by
  have hany : s.messages.any (fun m => decide (m.id = genId s.nextId)) = false := by
    rw [List.any_eq_false]
    intro x hx
    simpa using hfresh x hx
  simp only [sendMessage]
  cases hch : getChannel { s with nextId := s.nextId + 1 } ch with
  | some c2 =>
      simp only [hany]
      refine ⟨_, _, rfl, rfl, rfl, rfl, rfl, rfl, rfl, rfl, rfl, rfl, rfl, rfl, rfl,
        rfl, rfl, rfl, fun info _ => rfl⟩
  | none =>
      simp only [createChannel, hch, hany]
      refine ⟨_, _, rfl, rfl, rfl, rfl, rfl, rfl, rfl, rfl, rfl, rfl, rfl, rfl, rfl,
        rfl, rfl, rfl, fun info hinfo => ?_⟩
      exact absurd hinfo (by rw [show getChannel s ch = none from hch]; simp)

/-! ## C1: the blocking-send delivery gate -/

/-- C1: a send by a registered agent with a non-empty subscription set and
at least one non-expired unacknowledged message from another sender in its
subscribed channels is Blocked when force_send is not given — a distinct
outcome (not the failure constructor) carrying the unacked count, the
channel list and the remediation guidance — and the state (hence the
message store) is unchanged; with force_send the gate is bypassed and the
message is stored. -/
theorem busSend_delivery_gate (s : BusState) (ch aid sid msgContent : String)
    (prio ttl : Option Int) (ag : Agent)
    (hag : getAgent s aid sid = some ag)
    (hsubs : ag.subscribed_channels ≠ [])
    (hfresh : ∀ m ∈ s.messages, ¬ m.id = genId s.nextId) :
    ((∃ m ∈ s.messages, unackedExtB s.now aid ag.subscribed_channels m = true) →
      ∃ cnt chans age, busSend s ch aid sid msgContent prio ttl false =
        (.blocked cnt chans age blockedGuidance, s) ∧
        cnt = (s.messages.filter (unackedExtB s.now aid ag.subscribed_channels)).length ∧
        0 < cnt) ∧
    (∃ m s2, busSend s ch aid sid msgContent prio ttl true = (.ok m, s2) ∧
      s2.messages = s.messages ++ [m]) := by
  have hie : ag.subscribed_channels.isEmpty = false := List.isEmpty_eq_false.mpr hsubs
  constructor
  · intro hex
    have hcp : 0 < s.messages.countP (unackedExtB s.now aid ag.subscribed_channels) :=
      List.countP_pos_iff.mpr hex
    have hgate : hasUnackedExternalMessages s aid ag.subscribed_channels = true := by
      simp [hasUnackedExternalMessages, hie, hcp]
    have hcond : (!false && !ag.subscribed_channels.isEmpty
        && hasUnackedExternalMessages s aid ag.subscribed_channels) = true := by
      rw [hie, hgate]
      rfl
    refine ⟨(getUnackedExternalMessages s aid ag.subscribed_channels).count,
      (getUnackedExternalMessages s aid ag.subscribed_channels).channels,
      (getUnackedExternalMessages s aid ag.subscribed_channels).oldest_age_seconds,
      ?_, ?_, ?_⟩
    · simp only [busSend, hag, hcond]
      rfl
    · simp only [getUnackedExternalMessages, hie]
      rw [List.countP_eq_length_filter] at hcp
      simp
    · simp only [getUnackedExternalMessages, hie]
      rw [List.countP_eq_length_filter] at hcp
      simpa using hcp
  · have hcond2 : (!true && !ag.subscribed_channels.isEmpty
        && hasUnackedExternalMessages s aid ag.subscribed_channels) = false := by
      rfl
    obtain ⟨m, s2, heq, hmsgs, _⟩ := sendMessage_ok s ch aid sid msgContent
      { messageType := .broadcast, correlationId := none,
        priority := prio, ttlSeconds := ttl } hfresh
    refine ⟨m, s2, ?_, hmsgs⟩
    simp only [busSend, hag, hcond2]
    rw [heq]
    simp

/-- Witness for C1: a1's unforced send is Blocked with the state
unchanged, and the forced send stores the message. -/
theorem busSend_delivery_gate_w :
    (∃ cnt chans age, busSend gateState "c" "a1" "s1" "hello" none none false =
        (.blocked cnt chans age blockedGuidance, gateState) ∧
        cnt = (gateState.messages.filter
          (unackedExtB gateState.now "a1" gateAgent.subscribed_channels)).length ∧
        0 < cnt) ∧
    (∃ m s2, busSend gateState "c" "a1" "s1" "hello" none none true = (.ok m, s2) ∧
      s2.messages = gateState.messages ++ [m]) := by
  have h := busSend_delivery_gate gateState "c" "a1" "s1" "hello" none none gateAgent
    (by decide) (by decide) (by decide)
  exact ⟨h.1 ⟨gateMsg, by decide, by decide⟩, h.2⟩

/-! ## C5: request/response correlation round trip -/

/-- C5: sendRequest stores a request-typed message carrying a fresh
correlation id; sendResponse with that id resolves the request's channel
and stores exactly one response-typed message sharing the id on the same
channel, so getResponses then returns exactly that entry; sendResponse
with a correlation id matching no request fails and changes nothing. -/
theorem request_response_roundtrip (s : BusState)
    (ch aid sid aid2 sid2 c1 c2 badCid : String) (ttl : Int) (info : Channel)
    (hch : getChannel s ch = some info)
    (hid0 : ∀ m ∈ s.messages, ¬ m.id = genId s.nextId)
    (hf1 : ∀ m ∈ s.messages, ¬ m.id = genId (s.nextId + 1))
    (hf2 : ∀ m ∈ s.messages, ¬ m.id = genId (s.nextId + 2))
    (hcorr : ∀ m ∈ s.messages, ¬ m.correlation_id = some (genId s.nextId))
    (hne12 : ¬ genId (s.nextId + 1) = genId (s.nextId + 2))
    (hnoreq : ∀ m ∈ s.messages,
      ¬ ((m.id = badCid ∨ m.correlation_id = some badCid) ∧
         m.message_type = MType.request)) :
    (∃ req s1 resp s2,
      sendRequest s ch aid sid c1 ttl = (.ok req, s1) ∧
      req.message_type = MType.request ∧
      req.correlation_id = some (genId s.nextId) ∧ req.channel = ch ∧
      sendResponse s1 (genId s.nextId) aid2 sid2 c2 = (.ok resp, s2) ∧
      resp.message_type = MType.response ∧ resp.channel = ch ∧
      resp.correlation_id = some (genId s.nextId) ∧
      getResponses s2 (genId s.nextId) = [resp]) ∧
    sendResponse s badCid aid2 sid2 c2 =
      (.error ("No request found with correlation ID: " ++ badCid), s) := by
  constructor
  · obtain ⟨req, s1, heq1, hm1, _hag1, _hdl1, hnow1, hnext1, hrid, hrch, _hsa, _hss, _hc1,
        hrtype, hrcorr, _hprio, _hrcreated, _hrack, hchans1⟩ :=
      sendMessage_ok { s with nextId := s.nextId + 1 } ch aid sid c1
        { messageType := .request, correlationId := some (genId s.nextId),
          priority := none, ttlSeconds := some ttl } hf1
    have heqreq : sendRequest s ch aid sid c1 ttl = (.ok req, s1) := heq1
    have hm1' : s1.messages = s.messages ++ [req] := hm1
    have hrid' : req.id = genId (s.nextId + 1) := hrid
    have hnext1' : s1.nextId = s.nextId + 2 := hnext1
    have hchans1' : s1.channels = s.channels := hchans1 info hch
    have hfind : s1.messages.find? (fun m =>
        decide ((m.id = genId s.nextId ∨ m.correlation_id = some (genId s.nextId)) ∧
          m.message_type = MType.request)) = some req := by
      rw [hm1', List.find?_append]
      have hnone : s.messages.find? (fun m =>
          decide ((m.id = genId s.nextId ∨ m.correlation_id = some (genId s.nextId)) ∧
            m.message_type = MType.request)) = none := by
        rw [List.find?_eq_none]
        intro x hx
        simp only [decide_eq_true_eq]
        rintro ⟨hor, _⟩
        rcases hor with h | h
        · exact hid0 x hx h
        · exact hcorr x hx h
      rw [hnone, Option.none_or]
      have hpreq : (decide ((req.id = genId s.nextId ∨
          req.correlation_id = some (genId s.nextId)) ∧
          req.message_type = MType.request)) = true := by
        simp [hrcorr, hrtype]
      simp [List.find?, hpreq]
    have hfresh2 : ∀ m ∈ s1.messages, ¬ m.id = genId s1.nextId := by
      rw [hm1', hnext1']
      intro m hm
      rcases List.mem_append.mp hm with h | h
      · exact hf2 m h
      · have : m = req := by simpa using h
        rw [this, hrid']
        exact hne12
    obtain ⟨resp, s2, heq2, hm2, _, _, _, _, _hrespid, hrespch, _, _, _,
        hresptype, hrespcorr, _, _, _, _⟩ :=
      sendMessage_ok s1 req.channel aid2 sid2 c2
        { messageType := .response, correlationId := some (genId s.nextId),
          priority := none, ttlSeconds := none } hfresh2
    have heqresp : sendResponse s1 (genId s.nextId) aid2 sid2 c2 = (.ok resp, s2) := by
      simp only [sendResponse, hfind]
      exact heq2
    refine ⟨req, s1, resp, s2, heqreq, hrtype, hrcorr, hrch, heqresp, hresptype,
      by rw [hrespch, hrch], hrespcorr, ?_⟩
    have hm2' : s2.messages = (s.messages ++ [req]) ++ [resp] := by
      rw [hm2, hm1']
    unfold getResponses
    rw [hm2', List.filter_append, List.filter_append]
    have hfs : s.messages.filter (fun m =>
        decide (m.correlation_id = some (genId s.nextId) ∧
          m.message_type = MType.response)) = [] := by
      rw [List.filter_eq_nil_iff]
      intro x hx
      simp only [decide_eq_true_eq]
      rintro ⟨hc, _⟩
      exact hcorr x hx hc
    have hfreq : [req].filter (fun m =>
        decide (m.correlation_id = some (genId s.nextId) ∧
          m.message_type = MType.response)) = [] := by
      simp [List.filter_cons, hrtype]
    have hfresp : [resp].filter (fun m =>
        decide (m.correlation_id = some (genId s.nextId) ∧
          m.message_type = MType.response)) = [resp] := by
      simp [List.filter_cons, hrespcorr, hresptype]
    rw [hfs, hfreq, hfresp]
    simp [List.insertionSort]
  · have hfind2 : s.messages.find? (fun m =>
        decide ((m.id = badCid ∨ m.correlation_id = some badCid) ∧
          m.message_type = MType.request)) = none := by
      rw [List.find?_eq_none]
      intro x hx
      simpa using hnoreq x hx
    simp only [sendResponse, hfind2]

/-- Witness for C5 at a concrete empty store. -/
theorem request_response_roundtrip_w :
    (∃ req s1 resp s2,
      sendRequest rrState "c" "a1" "s1" "ask" 60 = (.ok req, s1) ∧
      req.message_type = MType.request ∧
      req.correlation_id = some (genId rrState.nextId) ∧ req.channel = "c" ∧
      sendResponse s1 (genId rrState.nextId) "a2" "s2" "ans" = (.ok resp, s2) ∧
      resp.message_type = MType.response ∧ resp.channel = "c" ∧
      resp.correlation_id = some (genId rrState.nextId) ∧
      getResponses s2 (genId rrState.nextId) = [resp]) ∧
    sendResponse rrState "nope" "a2" "s2" "ans" =
      (.error ("No request found with correlation ID: " ++ "nope"), rrState) :=
  request_response_roundtrip rrState "c" "a1" "s1" "a2" "s2" "ask" "ans" "nope" 60
    { name := "c", description := "", created_at := 0, message_ttl_seconds := 3600 }
    (by decide) (by decide) (by decide) (by decide) (by decide) (by decide) (by decide)

/-! ## C6: dead-letter queue invariants and the retry guard -/

/-- find? on a list whose keys are duplicate-free returns the unique
element carrying the matched key. -/
theorem find?_eq_of_nodup_key {α β : Type} [DecidableEq β] (l : List α) (key : α → β)
    (p : α → Bool) (k : β) (hnd : (l.map key).Nodup)
    (hpk : ∀ x, p x = true → key x = k)
    (d0 : α) (hd0 : d0 ∈ l) (hp0 : p d0 = true) : l.find? p = some d0 := by
  induction l with
  | nil => cases hd0
  | cons a t ih =>
      have hnd2 : (t.map key).Nodup := by
        rw [List.map_cons] at hnd
        exact (List.nodup_cons.mp hnd).2
      have hnotin : key a ∉ t.map key := by
        rw [List.map_cons] at hnd
        exact (List.nodup_cons.mp hnd).1
      rw [List.find?_cons]
      rcases List.mem_cons.mp hd0 with heq | hmem
      · subst heq
        rw [hp0]
      · cases hpa : p a with
        | false => exact ih hnd2 hmem
        | true =>
            exfalso
            apply hnotin
            rw [hpk a hpa, ← hpk d0 hp0]
            exact List.mem_map_of_mem key hmem

/-- Unfolding lemma: the rows produced by resolveDeadLetter. -/
theorem resolveDeadLetter_dls (s : BusState) (dlqId resol : String) :
    (resolveDeadLetter s dlqId resol).2.deadLetters = s.deadLetters.map (fun d =>
      if d.id = dlqId ∧ d.resolved_at = none then
        { d with resolved_at := some s.now,
                 failure_reason := d.failure_reason ++ " | Resolution: " ++ resol }
      else d) := rfl

/-- C6: the dead-letter operations preserve retry_count ≤ max_retries and
never un-resolve a resolved entry; retryDeadLetter is guarded by
retry_count < max_retries, so an unresolved entry one short of the cap is
incremented to the cap and marked resolved on a successful retry, while an
entry at the cap reports false with the state unchanged. -/
theorem deadLetter_retry_invariants (s : BusState) (dlqId agentId resol mid reason : String)
    (hnd : (s.deadLetters.map DeadLetter.id).Nodup) :
    ((∀ d ∈ s.deadLetters, d.retry_count ≤ d.max_retries) →
      ∀ d ∈ (retryDeadLetter s dlqId agentId).2.deadLetters,
        d.retry_count ≤ d.max_retries) ∧
    (∀ i, (∃ d ∈ s.deadLetters, d.id = i ∧ d.resolved_at ≠ none) →
      ∃ d ∈ (retryDeadLetter s dlqId agentId).2.deadLetters,
        d.id = i ∧ d.resolved_at ≠ none) ∧
    ((∀ d ∈ s.deadLetters, d.retry_count ≤ d.max_retries) →
      ∀ d ∈ (resolveDeadLetter s dlqId resol).2.deadLetters,
        d.retry_count ≤ d.max_retries) ∧
    (∀ i, (∃ d ∈ s.deadLetters, d.id = i ∧ d.resolved_at ≠ none) →
      ∃ d ∈ (resolveDeadLetter s dlqId resol).2.deadLetters,
        d.id = i ∧ d.resolved_at ≠ none) ∧
    ((∀ d ∈ s.deadLetters, d.retry_count ≤ d.max_retries) →
      ∀ s3, addToDeadLetter s mid reason = .ok s3 →
        ∀ d ∈ s3.deadLetters, d.retry_count ≤ d.max_retries) ∧
    (∀ i, (∃ d ∈ s.deadLetters, d.id = i ∧ d.resolved_at ≠ none) →
      ∀ s3, addToDeadLetter s mid reason = .ok s3 →
        ∃ d ∈ s3.deadLetters, d.id = i ∧ d.resolved_at ≠ none) ∧
    (∀ d0 ∈ s.deadLetters, d0.id = dlqId → d0.resolved_at = none →
      d0.retry_count + 1 = d0.max_retries →
      (∀ m ∈ s.messages, ¬ m.id = genId s.nextId) →
      (retryDeadLetter s dlqId agentId).1 = true ∧
      ∃ d ∈ (retryDeadLetter s dlqId agentId).2.deadLetters,
        d.id = dlqId ∧ d.retry_count = d0.max_retries ∧ d.resolved_at = some s.now) ∧
    (∀ d0 ∈ s.deadLetters, d0.id = dlqId → d0.resolved_at = none →
      d0.retry_count = d0.max_retries →
      retryDeadLetter s dlqId agentId = (false, s)) := by
  have hinj := List.inj_on_of_nodup_map hnd
  have hcase : retryDeadLetter s dlqId agentId = (false, s) ∨
      ∃ dlq, dlq ∈ s.deadLetters ∧ dlq.id = dlqId ∧ dlq.resolved_at = none ∧
        dlq.retry_count < dlq.max_retries ∧
        ((retryDeadLetter s dlqId agentId).2.deadLetters = s.deadLetters.map (fun d =>
            if d.id = dlqId then
              { d with retry_count := d.retry_count + 1, resolved_at := some s.now }
            else d) ∨
         (retryDeadLetter s dlqId agentId).2.deadLetters = s.deadLetters.map (fun d =>
            if d.id = dlqId then { d with retry_count := d.retry_count + 1 } else d)) := by
    cases hfind : s.deadLetters.find? (fun d =>
        decide (d.id = dlqId ∧ d.resolved_at = none)) with
    | none => exact Or.inl (by simp only [retryDeadLetter, hfind])
    | some dlq =>
        have hdmem := List.mem_of_find?_eq_some hfind
        have hdp := List.find?_some hfind
        simp only [decide_eq_true_eq] at hdp
        by_cases hguard : dlq.max_retries ≤ dlq.retry_count
        · exact Or.inl (by simp only [retryDeadLetter, hfind, if_pos hguard])
        · refine Or.inr ⟨dlq, hdmem, hdp.1, hdp.2, Nat.lt_of_not_le hguard, ?_⟩
          rcases hr : sendMessage s dlq.channel dlq.sender_agent dlq.sender_session
              dlq.content defaultSendOpts with ⟨e, s2⟩
          have hdl2 : s2.deadLetters = s.deadLetters := by
            have h0 := sendMessage_deadLetters s dlq.channel dlq.sender_agent
              dlq.sender_session dlq.content defaultSendOpts
            rw [hr] at h0
            exact h0
          cases e with
          | ok m =>
              refine Or.inl ?_
              simp only [retryDeadLetter, hfind, if_neg hguard, hr]
              rw [hdl2]
          | error err =>
              refine Or.inr ?_
              simp only [retryDeadLetter, hfind, if_neg hguard, hr]
              rw [hdl2]
  refine ⟨?_, ?_, ?_, ?_, ?_, ?_, ?_, ?_⟩
  · intro hI d hd
    rcases hcase with heq | ⟨dlq, hdlqmem, hdlqid, _hres, hlt, hmap⟩
    · rw [heq] at hd
      exact hI d hd
    · rcases hmap with hm | hm <;> rw [hm] at hd <;>
        obtain ⟨y, hy, hfy⟩ := List.mem_map.mp hd
      · by_cases hid : y.id = dlqId
        · have hydlq : y = dlq := hinj hy hdlqmem (by rw [hid, hdlqid])
          rw [if_pos hid] at hfy
          rw [← hfy]
          subst hydlq
          exact hlt
        · rw [if_neg hid] at hfy
          rw [← hfy]
          exact hI y hy
      · by_cases hid : y.id = dlqId
        · have hydlq : y = dlq := hinj hy hdlqmem (by rw [hid, hdlqid])
          rw [if_pos hid] at hfy
          rw [← hfy]
          subst hydlq
          exact hlt
        · rw [if_neg hid] at hfy
          rw [← hfy]
          exact hI y hy
  · rintro i ⟨d, hd, hdi, hdres⟩
    rcases hcase with heq | ⟨dlq, hdlqmem, hdlqid, hres, _hlt, hmap⟩
    · rw [heq]
      exact ⟨d, hd, hdi, hdres⟩
    · have hdid : ¬ d.id = dlqId := by
        intro hcon
        have : d = dlq := hinj hd hdlqmem (by rw [hcon, hdlqid])
        rw [this] at hdres
        exact hdres hres
      rcases hmap with hm | hm <;> rw [hm]
      · exact ⟨d, List.mem_map.mpr ⟨d, hd, by rw [if_neg hdid]⟩, hdi, hdres⟩
      · exact ⟨d, List.mem_map.mpr ⟨d, hd, by rw [if_neg hdid]⟩, hdi, hdres⟩
  · intro hI d hd
    rw [resolveDeadLetter_dls] at hd
    obtain ⟨y, hy, hfy⟩ := List.mem_map.mp hd
    by_cases hc : y.id = dlqId ∧ y.resolved_at = none
    · rw [if_pos hc] at hfy
      rw [← hfy]
      exact hI y hy
    · rw [if_neg hc] at hfy
      rw [← hfy]
      exact hI y hy
  · rintro i ⟨d, hd, hdi, hdres⟩
    rw [resolveDeadLetter_dls]
    have hcnot : ¬ (d.id = dlqId ∧ d.resolved_at = none) := fun hcon => hdres hcon.2
    exact ⟨d, List.mem_map.mpr ⟨d, hd, by rw [if_neg hcnot]⟩, hdi, hdres⟩
  · intro hI s3 hs3 d hd
    cases hget : getMessage s mid with
    | none =>
        simp only [addToDeadLetter, hget] at hs3
        cases hs3
    | some m =>
        simp only [addToDeadLetter, hget, Except.ok.injEq] at hs3
        rw [← hs3] at hd
        rcases List.mem_append.mp hd with h | h
        · exact hI d h
        · rw [List.mem_singleton.mp h]
          exact Nat.zero_le _
  · rintro i ⟨d, hd, hdi, hdres⟩ s3 hs3
    cases hget : getMessage s mid with
    | none =>
        simp only [addToDeadLetter, hget] at hs3
        cases hs3
    | some m =>
        simp only [addToDeadLetter, hget, Except.ok.injEq] at hs3
        rw [← hs3]
        exact ⟨d, List.mem_append.mpr (Or.inl hd), hdi, hdres⟩
  · intro d0 hd0 hid0 hres0 hrc0 hfreshM
    have hfind : s.deadLetters.find? (fun d =>
        decide (d.id = dlqId ∧ d.resolved_at = none)) = some d0 :=
      find?_eq_of_nodup_key s.deadLetters DeadLetter.id _ dlqId hnd
        (fun x hx => (of_decide_eq_true hx).1) d0 hd0 (by simp [hid0, hres0])
    have hguard : ¬ d0.max_retries ≤ d0.retry_count := by omega
    obtain ⟨m, s2, hr, _hm, _hag, hdl2, _hnow, _hnext, _hid, _hch, _hsa, _hss, _hc,
        _hmt, _hcorr, _hpr, _hcr, _hack, _hchans⟩ :=
      sendMessage_ok s d0.channel d0.sender_agent d0.sender_session d0.content
        defaultSendOpts hfreshM
    constructor
    · simp only [retryDeadLetter, hfind, if_neg hguard, hr]
    · simp only [retryDeadLetter, hfind, if_neg hguard, hr]
      rw [hdl2]
      refine ⟨{ d0 with retry_count := d0.retry_count + 1, resolved_at := some s.now },
        List.mem_map.mpr ⟨d0, hd0, by rw [if_pos hid0]⟩, hid0, hrc0, rfl⟩
  · intro d0 hd0 hid0 hres0 hrc0
    have hfind : s.deadLetters.find? (fun d =>
        decide (d.id = dlqId ∧ d.resolved_at = none)) = some d0 :=
      find?_eq_of_nodup_key s.deadLetters DeadLetter.id _ dlqId hnd
        (fun x hx => (of_decide_eq_true hx).1) d0 hd0 (by simp [hid0, hres0])
    have hguard : d0.max_retries ≤ d0.retry_count := by omega
    simp only [retryDeadLetter, hfind, if_pos hguard]

/-- Witness for C6: the concrete entry at retry_count = max_retries - 1
retries successfully, reaching the cap and being marked resolved. -/
theorem deadLetter_retry_invariants_w :
    (retryDeadLetter dlqState "dlq_1" "a").1 = true ∧
    ∃ d ∈ (retryDeadLetter dlqState "dlq_1" "a").2.deadLetters,
      d.id = "dlq_1" ∧ d.retry_count = dlqEntry.max_retries ∧
      d.resolved_at = some dlqState.now := by
  have h := deadLetter_retry_invariants dlqState "dlq_1" "a" "res" "msg_9" "why" (by decide)
  exact h.2.2.2.2.2.2.1 dlqEntry (by decide) (by decide) (by decide) (by decide) (by decide)

/-- Witness for C7's amended theorem: on a state whose task exists the
insert succeeds in status assigned, discharging both branches' hypotheses
(the missing-task branch at an id matching no task). -/
theorem assignTask_fk_enforced_w :
    ((assignTask casState "t9" "a2" false).1 = Except.error "FOREIGN KEY constraint failed" ∧
     (assignTask casState "t9" "a2" false).2.assignments = casState.assignments) ∧
    (∃ asg, (assignTask casState "t1" "a2" false).1 = Except.ok asg ∧
      asg.status = "assigned" ∧ asg.task_id = "t1" ∧ asg.agent_id = "a2" ∧
      asg.blocking = false ∧
      (assignTask casState "t1" "a2" false).2.assignments = casState.assignments ++ [asg]) := by
  refine ⟨(assignTask_fk_enforced casState "t9" "a2" false).1 (by decide),
    (assignTask_fk_enforced casState "t1" "a2" false).2 (by decide) (by decide)⟩
